import Mathlib

/-!
# The molecular-dynamics driver (`main.cpp`)

A shallow embedding of the program entry point of the simulator: the reading of
the command line, the one-time configuration of the engine, the time-step loop
and the final report.  The driver is modelled as a program that emits a trace
of the calls it makes (unit converter, engine, sampler, thermostat, timers,
console), in program order.

Modelling conventions.

* `double` and `float` values are represented by the exact rational numbers that
  the source denotes (`1e-14` is `1 / 10 ^ 14`); binary rounding is not part of
  the model.
* `int` is `Int` and `unsigned int` is `Nat`, with the conversions of the
  language made explicit (`toUnsigned`, reduction modulo `2 ^ 32`).
* Behaviour that the language leaves undefined ends the run: reading `argv`
  past its end, and incrementing the `int` loop counter past `INT_MAX`.
* The C library (`atoi`, `atof`), the `UnitConverter` class and the engine are
  not part of `main.cpp`; they are parameters of the model.
-/

namespace MolecularDynamics

/-! ## Events and runs -/

/-- The `CPElapsedTimer` stopwatches that the driver starts and stops. -/
inductive Timer
  | timeEvolution
  | sampling
  | thermostat
  deriving DecidableEq

/-- One observable action of the driver.  Arguments are the values passed. -/
inductive Event
  /-- An access `argv[i]`. -/
  | argvRead (i : Nat)
  /-- A call `UnitConverter::timeFromSI(seconds)`. -/
  | timeFromSI (seconds : ℚ)
  /-- A call `UnitConverter::lengthFromAngstroms(angstroms)`. -/
  | lengthFromAngstroms (angstroms : ℚ)
  /-- A call `UnitConverter::temperatureFromSI(kelvin)`. -/
  | temperatureFromSI (kelvin : ℚ)
  /-- The declaration `System system;`. -/
  | newSystem
  /-- The declaration `StatisticsSampler statisticsSampler;`. -/
  | newStatisticsSampler
  /-- The declaration `BerendsenThermostat thermostat(temperature, relaxationTime);`. -/
  | newBerendsenThermostat (temperature relaxationTime : ℚ)
  /-- A call `system.setCutoffRadius(rCut)`. -/
  | setCutoffRadius (rCut : ℚ)
  /-- A call `system.createFCCLattice(numUnitCells, latticeConstant, temperature)`. -/
  | createFCCLattice (numUnitCells : Int) (latticeConstant temperature : ℚ)
  /-- A call `system.setPotential(new LennardJones(sigma, epsilon, rCut))`. -/
  | setPotential (sigma epsilon rCut : ℚ)
  /-- A call `system.setIntegrator(new VelocityVerlet())`. -/
  | setIntegrator
  /-- A call `system.removeMomentum()`. -/
  | removeMomentum
  /-- The creation of the `IO` object and `movie->open(fileName)`. -/
  | movieOpen (fileName : String)
  /-- A call `CPElapsedTimer::t().start()`. -/
  | timerStart (t : Timer)
  /-- A call `CPElapsedTimer::t().stop()`. -/
  | timerStop (t : Timer)
  /-- The line `Will run <numTimeSteps> timesteps.` -/
  | printWillRun (numTimeSteps : Nat)
  /-- A call `system.setShouldSample(shouldSample)`. -/
  | setShouldSample (shouldSample : Bool)
  /-- A call `system.step(dt)`. -/
  | step (dt : ℚ)
  /-- A call `statisticsSampler.sample(&system)`. -/
  | sample
  /-- A call `thermostat.apply(&system, &statisticsSampler)`. -/
  | thermostatApply
  /-- The report line `Step <timestep> t= ... Epot/n = ... Ekin/n = ... Etot/n = ...`,
  with the reads of the clock and of the sampled energies that it prints. -/
  | report (timestep : Int)
  /-- The timing summary printed after the loop. -/
  | printSummary (numTimeSteps : Nat)
  /-- The call `movie->close()`. -/
  | movieClose
  deriving DecidableEq

/-- Reasons for which a run ends before `main` returns. -/
inductive Abort
  /-- The driver indexed `argv` at `i`, at or past the argument count. -/
  | argvOutOfBounds (i : Nat)
  /-- An engine call rejected its configuration and ended the program. -/
  | fatal (call : Event)
  /-- The `int` loop counter was incremented at `INT_MAX`. -/
  | signedOverflow
  /-- The model ran out of fuel (never the case, see `runTimeLoop_eq`). -/
  | outOfFuel
  deriving DecidableEq

/-- How a (part of a) run ends: normally with a value, or aborted. -/
inductive Outcome (α : Type)
  | done (value : α)
  | abort (why : Abort)
  deriving DecidableEq

/-- A run: the calls made so far, in order, and how the run ended. -/
structure Run (α : Type) where
  trace : List Event
  result : Outcome α

namespace Run

/-- Sequencing: the second part runs only when the first ended normally. -/
def andThen {α β : Type} (m : Run α) (f : α → Run β) : Run β :=
  match m.result with
  | .abort why => ⟨m.trace, .abort why⟩
  | .done a => ⟨m.trace ++ (f a).trace, (f a).result⟩

instance : Monad Run where
  pure a := ⟨[], .done a⟩
  bind := andThen

end Run

/-- Perform one call that returns nothing. -/
def emit (e : Event) : Run Unit := ⟨[e], .done ()⟩

/-- End the run. -/
def stop {α : Type} (why : Abort) : Run α := ⟨[], .abort why⟩

/-! ## The collaborators of the driver -/

/-- The two C library functions the driver uses, as functions of the argument text. -/
structure Libc where
  atoi : String → Int
  atof : String → ℚ

/-- The three conversions of `UnitConverter` the driver uses before the loop. -/
structure UnitConverter where
  timeFromSI : ℚ → ℚ
  lengthFromAngstroms : ℚ → ℚ
  temperatureFromSI : ℚ → ℚ

/-- The behaviour of the engine class `System` that the driver depends on: for
which arguments `createFCCLattice` ends the program instead of returning.  All
other engine calls return. -/
structure Engine where
  rejectsLattice : Int → ℚ → ℚ → Bool

/-- An engine all of whose calls return. -/
def permissiveEngine : Engine :=
  ⟨fun _ _ _ => false⟩

/-- Modelled from the spec: the engine class `System` (`system.h`), and with it
`System::createFCCLattice`, is not among the sources.  The specification says of
the lattice constructor "Fails if `numCellsPerAxis` ≤ 0", and counts a
"non-positive lattice cell count" among the configuration errors that "are fatal
at setup and must prevent `step()` from running". -/
def specEngine : Engine :=
  ⟨fun numUnitCells _ _ => decide (numUnitCells ≤ 0)⟩

namespace Call

/-- The call `UnitConverter::timeFromSI(seconds)`. -/
def timeFromSI (uc : UnitConverter) (seconds : ℚ) : Run ℚ :=
  ⟨[.timeFromSI seconds], .done (uc.timeFromSI seconds)⟩

/-- The call `UnitConverter::lengthFromAngstroms(angstroms)`. -/
def lengthFromAngstroms (uc : UnitConverter) (angstroms : ℚ) : Run ℚ :=
  ⟨[.lengthFromAngstroms angstroms], .done (uc.lengthFromAngstroms angstroms)⟩

/-- The call `UnitConverter::temperatureFromSI(kelvin)`. -/
def temperatureFromSI (uc : UnitConverter) (kelvin : ℚ) : Run ℚ :=
  ⟨[.temperatureFromSI kelvin], .done (uc.temperatureFromSI kelvin)⟩

/-- The access `argv[i]`; past the end of the argument vector the run ends. -/
def argvAt (argv : List String) (i : Nat) : Run String :=
  match argv[i]? with
  | some s => ⟨[.argvRead i], .done s⟩
  | none => ⟨[.argvRead i], .abort (.argvOutOfBounds i)⟩

/-- The call `system.createFCCLattice(numUnitCells, latticeConstant, temperature)`. -/
def createFCCLattice (sys : Engine) (numUnitCells : Int) (latticeConstant temperature : ℚ) :
    Run Unit :=
  if sys.rejectsLattice numUnitCells latticeConstant temperature then
    ⟨[.createFCCLattice numUnitCells latticeConstant temperature],
      .abort (.fatal (.createFCCLattice numUnitCells latticeConstant temperature))⟩
  else emit (.createFCCLattice numUnitCells latticeConstant temperature)

end Call

/-! ## Machine integers -/

/-- The largest `int`. -/
def INT_MAX : Int := 2147483647

/-- Conversion of an `int` to `unsigned int`. -/
def toUnsigned (x : Int) : Nat := (x % 4294967296).toNat

/-- Conversion of an `int` to `bool`. -/
def toBool (x : Int) : Bool := x != 0

/-! ## The driver -/

/-- The local variables of `main` that hold the configuration (lines 19–26). -/
structure Config where
  numTimeSteps : Nat
  dt : ℚ
  numUnitCells : Int
  latticeConstant : ℚ
  loadState : Bool
  thermostatEnabled : Bool
  temperature : ℚ
  deriving DecidableEq

/-- Lines 19–35 of `main`: the defaults, and their replacement from `argv` when
there is more than the program name. -/
def parseArguments (libc : Libc) (uc : UnitConverter) (argv : List String) : Run Config := do
  let args := argv.length
  let mut numTimeSteps : Nat := 100
  let mut dt ← Call.timeFromSI uc 1e-14
  let mut numUnitCells : Int := 8
  let mut latticeConstant : ℚ := 5.26
  let mut loadState : Bool := false
  let mut thermostatEnabled : Bool := false
  let mut temperature : ℚ := 150
  if args > 1 then
    dt ← Call.timeFromSI uc (libc.atof (← Call.argvAt argv 1) * 1e-15)
    numTimeSteps := toUnsigned (libc.atoi (← Call.argvAt argv 2))
    numUnitCells := libc.atoi (← Call.argvAt argv 3)
    latticeConstant := libc.atof (← Call.argvAt argv 4)
    loadState := toBool (libc.atoi (← Call.argvAt argv 5))
    thermostatEnabled := toBool (libc.atoi (← Call.argvAt argv 6))
    temperature := libc.atof (← Call.argvAt argv 7)
  return { numTimeSteps, dt, numUnitCells, latticeConstant, loadState, thermostatEnabled,
           temperature }

/-- Lines 37–54 of `main`: the objects are created and the engine is configured.
Returns the cutoff radius.  The two conversions in the argument list of
`createFCCLattice` are recorded left to right; they are stateless, and both
precede the call. -/
def setUp (sys : Engine) (uc : UnitConverter) (cfg : Config) : Run ℚ := do
  let rCut ← Call.lengthFromAngstroms uc (2.5 * 3.405)
  emit .newSystem
  emit .newStatisticsSampler
  emit (.newBerendsenThermostat (← Call.temperatureFromSI uc cfg.temperature) 0.01)
  emit (.setCutoffRadius rCut)
  Call.createFCCLattice sys cfg.numUnitCells
    (← Call.lengthFromAngstroms uc cfg.latticeConstant)
    (← Call.temperatureFromSI uc cfg.temperature)
  emit (.setPotential (← Call.lengthFromAngstroms uc 3.405) 1.0 rCut)
  emit .setIntegrator
  emit .removeMomentum
  emit (.movieOpen "movie.xyz")
  emit (.timerStart .timeEvolution)
  emit (.printWillRun cfg.numTimeSteps)
  return rCut

/-- Lines 56–75 of `main`: the body of the loop at counter value `timestep`. -/
def loopBody (dt : ℚ) (thermostatEnabled : Bool) (timestep : Int) : Run Unit := do
  let shouldSample : Bool := (timestep.tmod 10 == 0) || thermostatEnabled
  emit (.setShouldSample shouldSample)
  emit (.step dt)
  if shouldSample then
    emit (.timerStart .sampling)
    emit .sample
    emit (.timerStop .sampling)
  if thermostatEnabled then
    emit (.timerStart .thermostat)
    emit .thermostatApply
    emit (.timerStop .thermostat)
  if timestep.tmod 10 == 0 then
    emit (.report timestep)

/-- Line 55 of `main`: `for(int timestep=0; timestep<numTimeSteps; timestep++)`,
from the counter value `timestep` on.  The comparison is made in `unsigned int`. -/
def timeLoop (numTimeSteps : Nat) (dt : ℚ) (thermostatEnabled : Bool) :
    Nat → Int → Run Unit
  | 0, _ => stop .outOfFuel
  | fuel + 1, timestep =>
    if toUnsigned timestep < numTimeSteps then do
      loopBody dt thermostatEnabled timestep
      if timestep = INT_MAX then
        stop .signedOverflow
      else
        timeLoop numTimeSteps dt thermostatEnabled fuel (timestep + 1)
    else
      pure ()

/-- The whole loop of lines 55–76, started at `timestep = 0`. -/
def runTimeLoop (numTimeSteps : Nat) (dt : ℚ) (thermostatEnabled : Bool) : Run Unit :=
  timeLoop numTimeSteps dt thermostatEnabled (numTimeSteps + 1) 0

/-- Lines 77–110 of `main`: the timing summary, the closing of the movie file and
the return value. -/
def finish (cfg : Config) : Run Int := do
  emit (.timerStop .timeEvolution)
  emit (.printSummary cfg.numTimeSteps)
  emit .movieClose
  return 0

/-- The program entry point `main(args, argv)`, with `args = argv.length`. -/
def main (sys : Engine) (libc : Libc) (uc : UnitConverter) (argv : List String) : Run Int := do
  let cfg ← parseArguments libc uc argv
  let _rCut ← setUp sys uc cfg
  runTimeLoop cfg.numTimeSteps cfg.dt cfg.thermostatEnabled
  finish cfg

/-! ## Observations on traces -/

/-- The five calls that configure the engine before the loop. -/
inductive ConfigCall
  | setCutoffRadius
  | createFCCLattice
  | setPotential
  | setIntegrator
  | removeMomentum
  deriving DecidableEq

/-- Whether the event is a call of the configuration function `k`, with any arguments. -/
def Event.isConfig (k : ConfigCall) : Event → Bool
  | .setCutoffRadius _ => k = .setCutoffRadius
  | .createFCCLattice _ _ _ => k = .createFCCLattice
  | .setPotential _ _ _ => k = .setPotential
  | .setIntegrator => k = .setIntegrator
  | .removeMomentum => k = .removeMomentum
  | _ => false

/-- Whether the event is a call `system.step(dt)`, for any `dt`. -/
def Event.isStep : Event → Bool
  | .step _ => true
  | _ => false

/-- Whether the event is a report line, for any step number. -/
def Event.isReport : Event → Bool
  | .report _ => true
  | _ => false

/-- The indices at which `argv` was accessed, in order. -/
def argvReads (trace : List Event) : List Nat :=
  trace.filterMap fun e => match e with
    | .argvRead i => some i
    | _ => none

/-- The values handed to `UnitConverter::timeFromSI`, in order. -/
def timeFromSIArguments (trace : List Event) : List ℚ :=
  trace.filterMap fun e => match e with
    | .timeFromSI seconds => some seconds
    | _ => none

/-- The number of loop iterations that are executed for a configured
`numTimeSteps`: the `int` counter cannot pass `INT_MAX`. -/
def iterationCount (numTimeSteps : Nat) : Nat := min numTimeSteps 2147483648

/-! ## Concrete collaborators, for running the model on examples -/

/-- The value of the leading decimal digits of `cs`. -/
def digitsValue (cs : List Char) : Nat :=
  (cs.takeWhile Char.isDigit).foldl (fun n c => 10 * n + (c.toNat - 48)) 0

/-- The leading decimal number `digits[.digits]` of `cs`, as numerator and
denominator. -/
def decimalValue (cs : List Char) : Nat × Nat :=
  match cs.dropWhile Char.isDigit with
  | '.' :: rest =>
    let k := (rest.takeWhile Char.isDigit).length
    (digitsValue cs * 10 ^ k + digitsValue rest, 10 ^ k)
  | _ => (digitsValue cs, 1)

/-- A C library that reads plain decimal numbers with an optional minus sign, as
`atoi` and `atof` do on such text. -/
def decimalLibc : Libc where
  atoi s :=
    match s.toList with
    | '-' :: cs => -(digitsValue cs : Int)
    | cs => (digitsValue cs : Int)
  atof s :=
    match s.toList with
    | '-' :: cs => -((decimalValue cs).1 : ℚ) / ((decimalValue cs).2 : ℚ)
    | cs => ((decimalValue cs).1 : ℚ) / ((decimalValue cs).2 : ℚ)

/-- A unit converter whose internal units are the external ones. -/
def plainUnits : UnitConverter := ⟨id, id, id⟩

/-! # Properties -/

/-! ## The run monad and the shape of each part of the driver -/

@[simp] theorem Run.mk_done_bind {α β : Type} (tr : List Event) (a : α) (f : α → Run β) :
    (Run.mk tr (.done a)) >>= f = ⟨tr ++ (f a).trace, (f a).result⟩ := rfl

@[simp] theorem Run.mk_abort_bind {α β : Type} (tr : List Event) (w : Abort) (f : α → Run β) :
    (Run.mk tr (.abort w)) >>= f = ⟨tr, .abort w⟩ := rfl

@[simp] theorem Run.pure_def {α : Type} (a : α) : (pure a : Run α) = ⟨[], .done a⟩ := rfl

/-- The calls of one loop iteration, written out. -/
theorem loopBody_eq (dt : ℚ) (th : Bool) (t : Int) :
    loopBody dt th t =
      ⟨[.setShouldSample ((t.tmod 10 == 0) || th), .step dt]
        ++ (if ((t.tmod 10 == 0) || th) = true then
              [.timerStart .sampling, .sample, .timerStop .sampling] else [])
        ++ (if th = true then
              [.timerStart .thermostat, .thermostatApply, .timerStop .thermostat] else [])
        ++ (if (t.tmod 10 == 0) = true then [.report t] else []), .done ()⟩ := by
  cases th <;> cases h : (t.tmod 10 == 0) <;> simp [loopBody, emit, h]

theorem Run.bind_of_done {α β : Type} (m : Run α) (f : α → Run β) (a : α)
    (h : m.result = .done a) : m >>= f = ⟨m.trace ++ (f a).trace, (f a).result⟩ := by
  show Run.andThen m f = _
  unfold Run.andThen
  rw [h]

theorem loopBody_result (dt : ℚ) (th : Bool) (t : Int) :
    (loopBody dt th t).result = .done () := by
  rw [loopBody_eq]

theorem timeLoop_eq (n : Nat) (dt : ℚ) (th : Bool) (fuel : Nat) :
    ∀ t : Nat, t ≤ n → t ≤ 2147483647 → iterationCount n - t < fuel →
      timeLoop n dt th fuel (t : Int) =
        ⟨(List.range' t (iterationCount n - t)).flatMap (fun i => (loopBody dt th (i : Int)).trace),
          if n ≤ 2147483647 then .done () else .abort .signedOverflow⟩ := by
  induction fuel with
  | zero => intro t _ _ h; omega
  | succ fuel ih =>
    intro t htn htm hfuel
    have hu : toUnsigned (t : Int) = t := by
      unfold toUnsigned; omega
    unfold timeLoop
    by_cases hlt : t < n
    · simp only [hu, hlt, if_true]
      by_cases hmax : (t : Int) = INT_MAX
      · have ht : t = 2147483647 := by unfold INT_MAX at hmax; omega
        have hn : ¬ n ≤ 2147483647 := by omega
        have hk : iterationCount n - t = 1 := by unfold iterationCount; omega
        simp only [hmax, hn, hk, if_true, if_false]
        rw [Run.bind_of_done _ _ () (loopBody_result dt th _)]
        simp [stop, ← hmax]
      · have ht : t + 1 ≤ 2147483647 := by unfold INT_MAX at hmax; omega
        have hk : iterationCount n - t = (iterationCount n - (t + 1)) + 1 := by
          unfold iterationCount; omega
        have hrec := ih (t + 1) (by omega) ht (by omega)
        simp only [hmax, if_false]
        rw [Run.bind_of_done _ _ () (loopBody_result dt th _)]
        have hcast : ((t : Int) + 1) = ((t + 1 : Nat) : Int) := by push_cast; rfl
        rw [hcast, hrec, hk, List.range'_succ]
        simp
    · have hn : n = t := by omega
      have hk : iterationCount n - t = 0 := by unfold iterationCount; omega
      have hle : n ≤ 2147483647 := by omega
      simp [hu, hlt, hk, hle]


theorem runTimeLoop_eq (n : Nat) (dt : ℚ) (th : Bool) :
    runTimeLoop n dt th =
      ⟨(List.range (iterationCount n)).flatMap (fun i => (loopBody dt th (i : Int)).trace),
        if n ≤ 2147483647 then .done () else .abort .signedOverflow⟩ := by
  have h := timeLoop_eq n dt th (n + 1) 0 (by omega) (by omega)
    (by unfold iterationCount; omega)
  unfold runTimeLoop
  rw [List.range_eq_range']
  simpa using h

theorem parseArguments_default (libc : Libc) (uc : UnitConverter) (argv : List String)
    (h : argv.length ≤ 1) :
    parseArguments libc uc argv =
      ⟨[.timeFromSI 1e-14],
        .done { numTimeSteps := 100, dt := uc.timeFromSI 1e-14, numUnitCells := 8,
                latticeConstant := 5.26, loadState := false, thermostatEnabled := false,
                temperature := 150 }⟩ := by
  have h' : ¬ argv.length > 1 := by omega
  simp [parseArguments, h', Call.timeFromSI]

theorem parseArguments_full (libc : Libc) (uc : UnitConverter)
    (a0 a1 a2 a3 a4 a5 a6 a7 : String) (rest : List String) :
    parseArguments libc uc (a0 :: a1 :: a2 :: a3 :: a4 :: a5 :: a6 :: a7 :: rest) =
      ⟨[.timeFromSI 1e-14, .argvRead 1, .timeFromSI (libc.atof a1 * 1e-15), .argvRead 2,
        .argvRead 3, .argvRead 4, .argvRead 5, .argvRead 6, .argvRead 7],
        .done { numTimeSteps := toUnsigned (libc.atoi a2),
                dt := uc.timeFromSI (libc.atof a1 * 1e-15),
                numUnitCells := libc.atoi a3,
                latticeConstant := libc.atof a4,
                loadState := toBool (libc.atoi a5),
                thermostatEnabled := toBool (libc.atoi a6),
                temperature := libc.atof a7 }⟩ := by
  simp [parseArguments, Call.timeFromSI, Call.argvAt]

theorem parseArguments_overrun (libc : Libc) (uc : UnitConverter) (argv : List String)
    (h2 : 2 ≤ argv.length) (h7 : argv.length ≤ 7) :
    parseArguments libc uc argv =
      ⟨.timeFromSI 1e-14 :: .argvRead 1 :: .timeFromSI (libc.atof (argv.getD 1 "") * 1e-15) ::
          (List.range' 2 (argv.length - 1)).map Event.argvRead,
        .abort (.argvOutOfBounds argv.length)⟩ := by
  rcases argv with _ | ⟨a0, _ | ⟨a1, _ | ⟨a2, _ | ⟨a3, _ | ⟨a4, _ | ⟨a5, _ | ⟨a6, _ | ⟨a7, rest⟩⟩⟩⟩⟩⟩⟩⟩
  all_goals first
    | (simp at h2; done)
    | (simp at h7; done)
    | simp [parseArguments, Call.timeFromSI, Call.argvAt, List.range']

theorem setUp_accept (sys : Engine) (uc : UnitConverter) (cfg : Config)
    (h : sys.rejectsLattice cfg.numUnitCells (uc.lengthFromAngstroms cfg.latticeConstant)
          (uc.temperatureFromSI cfg.temperature) = false) :
    setUp sys uc cfg =
      ⟨[.lengthFromAngstroms (2.5 * 3.405), .newSystem, .newStatisticsSampler,
        .temperatureFromSI cfg.temperature,
        .newBerendsenThermostat (uc.temperatureFromSI cfg.temperature) 0.01,
        .setCutoffRadius (uc.lengthFromAngstroms (2.5 * 3.405)),
        .lengthFromAngstroms cfg.latticeConstant, .temperatureFromSI cfg.temperature,
        .createFCCLattice cfg.numUnitCells (uc.lengthFromAngstroms cfg.latticeConstant)
          (uc.temperatureFromSI cfg.temperature),
        .lengthFromAngstroms 3.405,
        .setPotential (uc.lengthFromAngstroms 3.405) 1.0 (uc.lengthFromAngstroms (2.5 * 3.405)),
        .setIntegrator, .removeMomentum, .movieOpen "movie.xyz", .timerStart .timeEvolution,
        .printWillRun cfg.numTimeSteps],
        .done (uc.lengthFromAngstroms (2.5 * 3.405))⟩ := by
  simp [setUp, Call.lengthFromAngstroms, Call.temperatureFromSI, Call.createFCCLattice, emit, h]

theorem setUp_reject (sys : Engine) (uc : UnitConverter) (cfg : Config)
    (h : sys.rejectsLattice cfg.numUnitCells (uc.lengthFromAngstroms cfg.latticeConstant)
          (uc.temperatureFromSI cfg.temperature) = true) :
    setUp sys uc cfg =
      ⟨[.lengthFromAngstroms (2.5 * 3.405), .newSystem, .newStatisticsSampler,
        .temperatureFromSI cfg.temperature,
        .newBerendsenThermostat (uc.temperatureFromSI cfg.temperature) 0.01,
        .setCutoffRadius (uc.lengthFromAngstroms (2.5 * 3.405)),
        .lengthFromAngstroms cfg.latticeConstant, .temperatureFromSI cfg.temperature,
        .createFCCLattice cfg.numUnitCells (uc.lengthFromAngstroms cfg.latticeConstant)
          (uc.temperatureFromSI cfg.temperature)],
        .abort (.fatal (.createFCCLattice cfg.numUnitCells
          (uc.lengthFromAngstroms cfg.latticeConstant) (uc.temperatureFromSI cfg.temperature)))⟩ := by
  simp [setUp, Call.lengthFromAngstroms, Call.temperatureFromSI, Call.createFCCLattice, emit, h]

theorem finish_eq (cfg : Config) :
    finish cfg = ⟨[.timerStop .timeEvolution, .printSummary cfg.numTimeSteps, .movieClose],
      .done 0⟩ := by
  simp [finish, emit]

theorem main_of_parse_abort (sys : Engine) (libc : Libc) (uc : UnitConverter)
    (argv : List String) (w : Abort) (h : (parseArguments libc uc argv).result = .abort w) :
    main sys libc uc argv = ⟨(parseArguments libc uc argv).trace, .abort w⟩ := by
  show Run.andThen _ _ = _
  unfold Run.andThen
  rw [h]

theorem main_of_reject (sys : Engine) (libc : Libc) (uc : UnitConverter)
    (argv : List String) (cfg : Config) (h : (parseArguments libc uc argv).result = .done cfg)
    (hr : sys.rejectsLattice cfg.numUnitCells (uc.lengthFromAngstroms cfg.latticeConstant)
          (uc.temperatureFromSI cfg.temperature) = true) :
    main sys libc uc argv =
      ⟨(parseArguments libc uc argv).trace ++ (setUp sys uc cfg).trace,
        .abort (.fatal (.createFCCLattice cfg.numUnitCells
          (uc.lengthFromAngstroms cfg.latticeConstant) (uc.temperatureFromSI cfg.temperature)))⟩ := by
  unfold main
  rw [Run.bind_of_done _ _ cfg h, setUp_reject sys uc cfg hr]
  simp

theorem main_of_accept (sys : Engine) (libc : Libc) (uc : UnitConverter)
    (argv : List String) (cfg : Config) (h : (parseArguments libc uc argv).result = .done cfg)
    (hr : sys.rejectsLattice cfg.numUnitCells (uc.lengthFromAngstroms cfg.latticeConstant)
          (uc.temperatureFromSI cfg.temperature) = false) :
    main sys libc uc argv =
      ⟨(parseArguments libc uc argv).trace ++ ((setUp sys uc cfg).trace ++
          ((runTimeLoop cfg.numTimeSteps cfg.dt cfg.thermostatEnabled).trace ++
            if cfg.numTimeSteps ≤ 2147483647 then (finish cfg).trace else [])),
        if cfg.numTimeSteps ≤ 2147483647 then .done 0 else .abort .signedOverflow⟩ := by
  unfold main
  rw [Run.bind_of_done _ _ cfg h, setUp_accept sys uc cfg hr, runTimeLoop_eq, finish_eq]
  by_cases hn : cfg.numTimeSteps ≤ 2147483647 <;> simp [hn]

/-! ## What each part of the driver calls -/

theorem exists_cons8 (argv : List String) (h : 8 ≤ argv.length) :
    ∃ a0 a1 a2 a3 a4 a5 a6 a7 rest,
      argv = a0 :: a1 :: a2 :: a3 :: a4 :: a5 :: a6 :: a7 :: rest := by
  rcases argv with _ | ⟨a0, _ | ⟨a1, _ | ⟨a2, _ | ⟨a3, _ | ⟨a4, _ | ⟨a5, _ | ⟨a6, _ | ⟨a7, rest⟩⟩⟩⟩⟩⟩⟩⟩
  all_goals first
    | (simp at h; done)
    | exact ⟨_, _, _, _, _, _, _, _, _, rfl⟩

/-- Reading the command line only calls `timeFromSI` and accesses `argv`. -/
theorem parseArguments_trace_kind (libc : Libc) (uc : UnitConverter) (argv : List String)
    (e : Event) (he : e ∈ (parseArguments libc uc argv).trace) :
    (∃ x, e = .timeFromSI x) ∨ (∃ i, e = .argvRead i) := by
  by_cases h1 : argv.length ≤ 1
  · rw [parseArguments_default libc uc argv h1] at he
    simp at he
    exact Or.inl ⟨_, he⟩
  · by_cases h7 : argv.length ≤ 7
    · rw [parseArguments_overrun libc uc argv (by omega) h7] at he
      simp only [List.mem_cons, List.mem_map] at he
      rcases he with he | he | he | ⟨i, _, he⟩
      · exact Or.inl ⟨_, he⟩
      · exact Or.inr ⟨_, he⟩
      · exact Or.inl ⟨_, he⟩
      · exact Or.inr ⟨_, he.symm⟩
    · obtain ⟨a0, a1, a2, a3, a4, a5, a6, a7, rest, rfl⟩ := exists_cons8 argv (by omega)
      rw [parseArguments_full] at he
      simp only [List.mem_cons, List.mem_singleton, List.not_mem_nil, or_false] at he
      rcases he with he | he | he | he | he | he | he | he | he
      all_goals first
        | exact Or.inl ⟨_, he⟩
        | exact Or.inr ⟨_, he⟩

theorem parseArguments_abort_kind (libc : Libc) (uc : UnitConverter) (argv : List String)
    (w : Abort) (h : (parseArguments libc uc argv).result = .abort w) :
    w = .argvOutOfBounds argv.length ∧ 2 ≤ argv.length ∧ argv.length ≤ 7 := by
  by_cases h1 : argv.length ≤ 1
  · rw [parseArguments_default libc uc argv h1] at h
    simp at h
  · by_cases h7 : argv.length ≤ 7
    · rw [parseArguments_overrun libc uc argv (by omega) h7] at h
      simp only [Outcome.abort.injEq] at h
      exact ⟨h.symm, by omega, h7⟩
    · obtain ⟨a0, a1, a2, a3, a4, a5, a6, a7, rest, rfl⟩ := exists_cons8 argv (by omega)
      rw [parseArguments_full] at h
      simp at h

theorem parseArguments_countP_eq_zero (libc : Libc) (uc : UnitConverter) (argv : List String)
    (p : Event → Bool) (hx : ∀ x, p (.timeFromSI x) = false) (hi : ∀ i, p (.argvRead i) = false) :
    (parseArguments libc uc argv).trace.countP p = 0 := by
  rw [List.countP_eq_zero]
  intro e he
  rcases parseArguments_trace_kind libc uc argv e he with ⟨x, rfl⟩ | ⟨i, rfl⟩
  · simp [hx]
  · simp [hi]

/-- The events of one loop iteration: membership, written out. -/
theorem mem_loopBody_trace (dt : ℚ) (th : Bool) (t : Int) (e : Event) :
    e ∈ (loopBody dt th t).trace ↔
      e = .setShouldSample ((t.tmod 10 == 0) || th) ∨ e = .step dt ∨
      (((t.tmod 10 == 0) || th) = true ∧
        (e = .timerStart .sampling ∨ e = .sample ∨ e = .timerStop .sampling)) ∨
      (th = true ∧
        (e = .timerStart .thermostat ∨ e = .thermostatApply ∨ e = .timerStop .thermostat)) ∨
      ((t.tmod 10 == 0) = true ∧ e = .report t) := by
  rw [loopBody_eq]
  cases th <;> cases h : (t.tmod 10 == 0) <;> simp [or_assoc]

theorem mem_runTimeLoop_trace (n : Nat) (dt : ℚ) (th : Bool) (e : Event) :
    e ∈ (runTimeLoop n dt th).trace ↔
      ∃ t : Nat, t < iterationCount n ∧ e ∈ (loopBody dt th (t : Int)).trace := by
  rw [runTimeLoop_eq]
  simp [List.mem_flatMap]

theorem runTimeLoop_countP_eq_zero (n : Nat) (dt : ℚ) (th : Bool) (p : Event → Bool)
    (hp : ∀ t : Int, ∀ e ∈ (loopBody dt th t).trace, p e = false) :
    (runTimeLoop n dt th).trace.countP p = 0 := by
  rw [List.countP_eq_zero]
  intro e he
  obtain ⟨t, _, ht⟩ := (mem_runTimeLoop_trace n dt th e).1 he
  simp [hp t e ht]

theorem loopBody_isConfig (dt : ℚ) (th : Bool) (k : ConfigCall) (t : Int) :
    ∀ e ∈ (loopBody dt th t).trace, e.isConfig k = false := by
  intro e he
  rw [mem_loopBody_trace] at he
  rcases he with rfl | rfl | ⟨_, rfl | rfl | rfl⟩ | ⟨_, rfl | rfl | rfl⟩ | ⟨_, rfl⟩ <;> rfl

/-- Where a trace `S ++ R` is cut at an event that does not occur in `S`, the cut
lies in `R`. -/
theorem cut_after (S R pre post : List Event) (e : Event) (hS : e ∉ S)
    (h : S ++ R = pre ++ e :: post) : ∃ a, pre = S ++ a ∧ R = a ++ e :: post := by
  rcases List.append_eq_append_iff.1 h with ⟨a, ha, hb⟩ | ⟨c, hc, hd⟩
  · exact ⟨a, ha, hb⟩
  · rcases c with _ | ⟨x, c⟩
    · refine ⟨[], ?_, ?_⟩
      · simpa using hc.symm
      · simpa using hd.symm
    · simp only [List.cons_append, List.cons.injEq] at hd
      exact absurd (by rw [hc, hd.1]; simp) hS

/-! ## C1: configuration before the first step -/

theorem setUp_accept_countP_isConfig (sys : Engine) (uc : UnitConverter) (cfg : Config)
    (h : sys.rejectsLattice cfg.numUnitCells (uc.lengthFromAngstroms cfg.latticeConstant)
          (uc.temperatureFromSI cfg.temperature) = false) (k : ConfigCall) :
    (setUp sys uc cfg).trace.countP (Event.isConfig k) = 1 := by
  rw [setUp_accept sys uc cfg h]
  cases k <;> simp [Event.isConfig, List.countP_cons]

theorem setUp_reject_countP_isConfig (sys : Engine) (uc : UnitConverter) (cfg : Config)
    (h : sys.rejectsLattice cfg.numUnitCells (uc.lengthFromAngstroms cfg.latticeConstant)
          (uc.temperatureFromSI cfg.temperature) = true) (k : ConfigCall) :
    (setUp sys uc cfg).trace.countP (Event.isConfig k) ≤ 1 := by
  rw [setUp_reject sys uc cfg h]
  cases k <;> simp [Event.isConfig, List.countP_cons]

theorem setUp_not_step (sys : Engine) (uc : UnitConverter) (cfg : Config) (dt : ℚ) :
    Event.step dt ∉ (setUp sys uc cfg).trace := by
  cases h : sys.rejectsLattice cfg.numUnitCells (uc.lengthFromAngstroms cfg.latticeConstant)
      (uc.temperatureFromSI cfg.temperature)
  · rw [setUp_accept sys uc cfg h]; simp
  · rw [setUp_reject sys uc cfg h]; simp

theorem parseArguments_not_step (libc : Libc) (uc : UnitConverter) (argv : List String)
    (dt : ℚ) : Event.step dt ∉ (parseArguments libc uc argv).trace := by
  intro he
  rcases parseArguments_trace_kind libc uc argv _ he with ⟨x, hx⟩ | ⟨i, hi⟩
  · cases hx
  · cases hi

theorem finish_countP_isConfig (cfg : Config) (k : ConfigCall) :
    (finish cfg).trace.countP (Event.isConfig k) = 0 := by
  rw [finish_eq]; simp [Event.isConfig, List.countP_cons]

/-- C1 (amended): in every run of the driver, whatever the argument vector, the
step count and the engine, every call to `system.step` comes after exactly one
call to each of `setCutoffRadius`, `createFCCLattice`, `setPotential`,
`setIntegrator` and `removeMomentum`, and none of these is called after it; none
of the five is called more than once in a run; and each is called exactly once
in every run that is not ended by an out-of-bounds access to `argv` or by
`createFCCLattice` rejecting its arguments. -/
theorem configuration_precedes_steps (sys : Engine) (libc : Libc) (uc : UnitConverter)
    (argv : List String) :
    (∀ pre dt post, (main sys libc uc argv).trace = pre ++ Event.step dt :: post →
      ∀ k, pre.countP (Event.isConfig k) = 1 ∧ post.countP (Event.isConfig k) = 0) ∧
    (∀ k, (main sys libc uc argv).trace.countP (Event.isConfig k) ≤ 1) ∧
    ((∀ i, (main sys libc uc argv).result ≠ .abort (.argvOutOfBounds i)) →
      (∀ call, (main sys libc uc argv).result ≠ .abort (.fatal call)) →
      ∀ k, (main sys libc uc argv).trace.countP (Event.isConfig k) = 1) := by
  have hP0 : ∀ k, (parseArguments libc uc argv).trace.countP (Event.isConfig k) = 0 :=
    fun k => parseArguments_countP_eq_zero libc uc argv _ (fun _ => rfl) (fun _ => rfl)
  cases hP : (parseArguments libc uc argv).result with
  | abort w =>
    rw [main_of_parse_abort sys libc uc argv w hP]
    refine ⟨?_, ?_, ?_⟩
    · intro pre dt post h
      exact absurd (by simp only [] at h; rw [h]; simp) (parseArguments_not_step libc uc argv dt)
    · intro k; simp [hP0 k]
    · intro h1 _
      exact absurd (by rw [(parseArguments_abort_kind libc uc argv w hP).1]) (h1 argv.length)
  | done cfg =>
    cases hr : sys.rejectsLattice cfg.numUnitCells (uc.lengthFromAngstroms cfg.latticeConstant)
        (uc.temperatureFromSI cfg.temperature) with
    | true =>
      rw [main_of_reject sys libc uc argv cfg hP hr]
      refine ⟨?_, ?_, ?_⟩
      · intro pre dt post h
        have hmem : Event.step dt ∈
            (parseArguments libc uc argv).trace ++ (setUp sys uc cfg).trace := by
          simp only [] at h; rw [h]; simp
        rcases List.mem_append.1 hmem with h1 | h1
        · exact absurd h1 (parseArguments_not_step libc uc argv dt)
        · exact absurd h1 (setUp_not_step sys uc cfg dt)
      · intro k
        simp only [List.countP_append, hP0 k, Nat.zero_add]
        exact setUp_reject_countP_isConfig sys uc cfg hr k
      · intro _ h2
        exact absurd rfl (h2 _)
    | false =>
      have hS : ∀ k, ((parseArguments libc uc argv).trace ++ (setUp sys uc cfg).trace).countP
          (Event.isConfig k) = 1 := by
        intro k
        rw [List.countP_append, hP0 k, setUp_accept_countP_isConfig sys uc cfg hr k]
      have hR : ∀ k, ((runTimeLoop cfg.numTimeSteps cfg.dt cfg.thermostatEnabled).trace ++
          if cfg.numTimeSteps ≤ 2147483647 then (finish cfg).trace else []).countP
          (Event.isConfig k) = 0 := by
        intro k
        rw [List.countP_append, runTimeLoop_countP_eq_zero _ _ _ _
          (fun t => loopBody_isConfig cfg.dt cfg.thermostatEnabled k t)]
        split
        · rw [finish_countP_isConfig]
        · rfl
      rw [main_of_accept sys libc uc argv cfg hP hr]
      simp only [← List.append_assoc _ (setUp sys uc cfg).trace]
      refine ⟨?_, ?_, ?_⟩
      · intro pre dt post h k
        have hnot : Event.step dt ∉
            (parseArguments libc uc argv).trace ++ (setUp sys uc cfg).trace := by
          intro hmem
          rcases List.mem_append.1 hmem with h1 | h1
          · exact parseArguments_not_step libc uc argv dt h1
          · exact setUp_not_step sys uc cfg dt h1
        obtain ⟨a, ha, hb⟩ := cut_after _ _ pre post _ hnot h
        have hR' := hR k
        rw [hb, List.countP_append, List.countP_cons] at hR'
        rw [ha, List.countP_append, hS k]
        omega
      · intro k
        rw [List.countP_append, hS k, hR k]
      · intro _ _ k
        rw [List.countP_append, hS k, hR k]

/-- C1 (as stated) fails: with the single argument `1` the driver accesses
`argv[2]`, past the end of the argument vector, and the run ends before
`setCutoffRadius` is called at all. -/
theorem configuration_not_always_once :
    (main permissiveEngine decimalLibc plainUnits ["md", "1"]).result
        = .abort (.argvOutOfBounds 2) ∧
      (main permissiveEngine decimalLibc plainUnits ["md", "1"]).trace.countP
        (Event.isConfig .setCutoffRadius) ≠ 1 := by
  decide

/-- The run of `md 1 3 8 5.26 0 0 150` returns, and calls `createFCCLattice`
exactly once. -/
theorem configuration_precedes_steps_witness :
    (main permissiveEngine decimalLibc plainUnits
        ["md", "1", "3", "8", "5.26", "0", "0", "150"]).trace.countP
      (Event.isConfig .createFCCLattice) = 1 :=
  (configuration_precedes_steps permissiveEngine decimalLibc plainUnits
      ["md", "1", "3", "8", "5.26", "0", "0", "150"]).2.2
    (by
      have h : (main permissiveEngine decimalLibc plainUnits
        ["md", "1", "3", "8", "5.26", "0", "0", "150"]).result = .done 0 := by decide
      intro i; rw [h]; simp)
    (by
      have h : (main permissiveEngine decimalLibc plainUnits
        ["md", "1", "3", "8", "5.26", "0", "0", "150"]).result = .done 0 := by decide
      intro c; rw [h]; simp)
    .createFCCLattice

/-! ## C2: the thermostat follows integration and sampling -/

theorem tmod_ten_beq_zero (t : Nat) : ((t : Int).tmod 10 == 0) = decide (t % 10 = 0) := by
  have h : (t : Int).tmod 10 = ((t % 10 : Nat) : Int) := (Int.ofNat_tmod t 10).symm
  rw [h]
  by_cases h0 : t % 10 = 0
  · simp [h0]
  · simp only [h0, decide_False, beq_eq_false_iff_ne, ne_eq]
    exact_mod_cast h0

theorem parseArguments_not_apply (libc : Libc) (uc : UnitConverter) (argv : List String) :
    Event.thermostatApply ∉ (parseArguments libc uc argv).trace := by
  intro he
  rcases parseArguments_trace_kind libc uc argv _ he with ⟨x, hx⟩ | ⟨i, hi⟩
  · cases hx
  · cases hi

theorem setUp_not_apply (sys : Engine) (uc : UnitConverter) (cfg : Config) :
    Event.thermostatApply ∉ (setUp sys uc cfg).trace := by
  cases h : sys.rejectsLattice cfg.numUnitCells (uc.lengthFromAngstroms cfg.latticeConstant)
      (uc.temperatureFromSI cfg.temperature)
  · rw [setUp_accept sys uc cfg h]; simp
  · rw [setUp_reject sys uc cfg h]; simp

theorem runTimeLoop_not_apply (n : Nat) (dt : ℚ) :
    Event.thermostatApply ∉ (runTimeLoop n dt false).trace := by
  intro he
  obtain ⟨t, _, ht⟩ := (mem_runTimeLoop_trace n dt false _).1 he
  rw [mem_loopBody_trace] at ht
  simp at ht

/-- C2: the thermostat is applied after integration and sampling.  The calls of
the loop are those of its iterations `0, 1, ...` in turn; in an iteration in
which `thermostat.apply` is called, the iteration called `system.step(dt)`, then
`statisticsSampler.sample`, then `thermostat.apply`, and `apply` is not called
before those two; when `thermostatEnabled` is true every iteration calls
`thermostat.apply`, and when it is false, `thermostat.apply` is called neither
in the loop nor anywhere else in the run. -/
theorem thermostat_after_step_and_sample (sys : Engine) (libc : Libc) (uc : UnitConverter)
    (argv : List String) (numTimeSteps : Nat) (dt : ℚ) (thermostatEnabled : Bool) :
    (runTimeLoop numTimeSteps dt thermostatEnabled).trace =
        (List.range (iterationCount numTimeSteps)).flatMap
          (fun t => (loopBody dt thermostatEnabled (t : Int)).trace) ∧
    (∀ t : Int, Event.thermostatApply ∈ (loopBody dt thermostatEnabled t).trace →
      ∃ a b c d, (loopBody dt thermostatEnabled t).trace =
          a ++ Event.step dt :: b ++ Event.sample :: c ++ Event.thermostatApply :: d ∧
        Event.thermostatApply ∉ a ++ Event.step dt :: b ++ Event.sample :: c) ∧
    (thermostatEnabled = false →
      Event.thermostatApply ∉ (runTimeLoop numTimeSteps dt thermostatEnabled).trace) ∧
    ((∀ cfg, (parseArguments libc uc argv).result = .done cfg → cfg.thermostatEnabled = false) →
      Event.thermostatApply ∉ (main sys libc uc argv).trace) ∧
    (thermostatEnabled = true →
      ∀ t : Int, Event.thermostatApply ∈ (loopBody dt thermostatEnabled t).trace) := by
  refine ⟨?_, ?_, ?_, ?_, ?_⟩
  rotate_left 4
  · intro hth t
    subst hth
    rw [mem_loopBody_trace]
    simp
  · rw [runTimeLoop_eq]
  · intro t ht
    rw [mem_loopBody_trace] at ht
    have hth : thermostatEnabled = true := by
      rcases ht with h | h | ⟨_, h | h | h⟩ | ⟨h, _⟩ | ⟨_, h⟩
      all_goals first
        | exact h
        | cases h
    subst hth
    refine ⟨[.setShouldSample true], [.timerStart .sampling],
      [.timerStop .sampling, .timerStart .thermostat],
      (.timerStop .thermostat :: if (t.tmod 10 == 0) = true then [.report t] else []), ?_, ?_⟩
    · rw [loopBody_eq]; simp
    · simp
  · intro hth
    subst hth
    exact runTimeLoop_not_apply numTimeSteps dt
  · intro hcfg
    cases hP : (parseArguments libc uc argv).result with
    | abort w =>
      rw [main_of_parse_abort sys libc uc argv w hP]
      exact parseArguments_not_apply libc uc argv
    | done cfg =>
      have hth := hcfg cfg hP
      cases hr : sys.rejectsLattice cfg.numUnitCells
          (uc.lengthFromAngstroms cfg.latticeConstant) (uc.temperatureFromSI cfg.temperature) with
      | true =>
        rw [main_of_reject sys libc uc argv cfg hP hr]
        simp only [List.mem_append, not_or]
        exact ⟨parseArguments_not_apply libc uc argv, setUp_not_apply sys uc cfg⟩
      | false =>
        rw [main_of_accept sys libc uc argv cfg hP hr, hth]
        simp only [List.mem_append, not_or]
        refine ⟨parseArguments_not_apply libc uc argv, setUp_not_apply sys uc cfg,
          runTimeLoop_not_apply _ _, ?_⟩
        split
        · rw [finish_eq]; simp
        · simp

/-- With the thermostat enabled, iteration 3 calls `thermostat.apply`, after
`system.step` and then `statisticsSampler.sample`, and so does the run of
`md 1 3 8 5.26 0 1 150`; with the thermostat disabled, neither a loop of 3
steps nor the run without arguments calls it. -/
theorem thermostat_after_step_and_sample_witness :
    Event.thermostatApply ∈ (loopBody (1 / 1000) true 3).trace ∧
    (∃ a b c d, (loopBody (1 / 1000) true 3).trace =
        a ++ Event.step (1 / 1000) :: b ++ Event.sample :: c ++ Event.thermostatApply :: d ∧
      Event.thermostatApply ∉ a ++ Event.step (1 / 1000) :: b ++ Event.sample :: c) ∧
    (main permissiveEngine decimalLibc plainUnits
        ["md", "1", "3", "8", "5.26", "0", "1", "150"]).trace.count Event.thermostatApply = 3 ∧
    Event.thermostatApply ∉ (runTimeLoop 3 (1 / 1000) false).trace ∧
    Event.thermostatApply ∉ (main permissiveEngine decimalLibc plainUnits ["md"]).trace :=
  ⟨by rw [mem_loopBody_trace]; simp,
   (thermostat_after_step_and_sample permissiveEngine decimalLibc plainUnits ["md"] 3
      (1 / 1000) true).2.1 3 (by rw [mem_loopBody_trace]; simp),
   by decide,
   (thermostat_after_step_and_sample permissiveEngine decimalLibc plainUnits ["md"] 3
      (1 / 1000) false).2.2.1 rfl,
   (thermostat_after_step_and_sample permissiveEngine decimalLibc plainUnits ["md"] 3
      (1 / 1000) false).2.2.2.1 (by
        intro cfg h
        rw [parseArguments_default decimalLibc plainUnits ["md"] (by decide)] at h
        cases h
        rfl)⟩

/-! ## C7: sampling cadence -/

theorem loopBody_countP_isStep (dt : ℚ) (th : Bool) (t : Int) :
    (loopBody dt th t).trace.countP Event.isStep = 1 := by
  rw [loopBody_eq]
  cases th <;> cases h : (t.tmod 10 == 0) <;> simp [Event.isStep, List.countP_cons]

theorem loopBody_count_step (dt : ℚ) (th : Bool) (t : Int) :
    (loopBody dt th t).trace.count (Event.step dt) = 1 := by
  rw [loopBody_eq]
  cases th <;> cases h : (t.tmod 10 == 0) <;> simp [List.count_cons]

theorem loopBody_count_sample (dt : ℚ) (th : Bool) (t : Nat) :
    (loopBody dt th (t : Int)).trace.count Event.sample =
      if th = true ∨ t % 10 = 0 then 1 else 0 := by
  rw [loopBody_eq, tmod_ten_beq_zero]
  cases th <;> by_cases h : t % 10 = 0 <;> simp [h, List.count_cons]

theorem countP_flatMap_range (p : Event → Bool) (f : Nat → List Event) (c : Nat)
    (h : ∀ i, (f i).countP p = c) (k : Nat) :
    ((List.range k).flatMap f).countP p = k * c := by
  induction k with
  | zero => simp
  | succ k ih =>
    rw [List.range_succ, List.flatMap_append, List.countP_append, ih]
    simp [h, Nat.succ_mul]

theorem count_sample_flatMap_range (dt : ℚ) (k : Nat) :
    ((List.range k).flatMap (fun t => (loopBody dt false (t : Int)).trace)).count Event.sample
      = (k + 9) / 10 := by
  induction k with
  | zero => simp
  | succ k ih =>
    rw [List.range_succ, List.flatMap_append, List.count_append, ih]
    simp only [List.flatMap_cons, List.flatMap_nil, List.append_nil, loopBody_count_sample]
    by_cases h : k % 10 = 0
    · simp only [h, Bool.false_eq_true, false_or, if_true]; omega
    · simp only [h, Bool.false_eq_true, false_or, if_false]; omega

theorem runTimeLoop_countP_isStep (n : Nat) (dt : ℚ) (th : Bool) :
    (runTimeLoop n dt th).trace.countP Event.isStep = iterationCount n := by
  rw [runTimeLoop_eq]
  simpa using countP_flatMap_range Event.isStep (fun t => (loopBody dt th (t : Int)).trace) 1
    (fun i => loopBody_countP_isStep dt th i) (iterationCount n)

theorem runTimeLoop_count_sample (n : Nat) (dt : ℚ) (th : Bool) :
    (runTimeLoop n dt th).trace.count Event.sample =
      if th = true then iterationCount n else (iterationCount n + 9) / 10 := by
  rw [runTimeLoop_eq]
  cases th
  · simpa using count_sample_flatMap_range dt (iterationCount n)
  · have h := countP_flatMap_range (· == Event.sample)
      (fun t => (loopBody dt true (t : Int)).trace) 1
      (fun i => by
        have := loopBody_count_sample dt true i
        simpa [List.count] using this) (iterationCount n)
    simpa [List.count] using h

theorem iterationCount_of_le (n : Nat) (h : n ≤ 2147483647) : iterationCount n = n := by
  unfold iterationCount; omega

/-- C7: sampling cadence.  The calls of the loop are those of its iterations
`0, 1, ...` in turn.  In iteration `t` the sampler is called if and only if `t`
is a multiple of 10 or the thermostat is enabled, and the iteration begins with
`system.setShouldSample` given exactly this condition, directly followed by the
iteration's only `system.step`.  Hence the sampler is called `⌈k/10⌉` times
with the thermostat disabled and `k` times with it enabled, `k` being the number
of steps of the run, which is the configured number when this is at most
`2^31 - 1`; for the default 100 steps without thermostat that is 10 times. -/
theorem sampling_cadence (numTimeSteps : Nat) (dt : ℚ) (thermostatEnabled : Bool) :
    (runTimeLoop numTimeSteps dt thermostatEnabled).trace =
        (List.range (iterationCount numTimeSteps)).flatMap
          (fun t => (loopBody dt thermostatEnabled (t : Int)).trace) ∧
    (∀ t : Nat,
      (Event.sample ∈ (loopBody dt thermostatEnabled (t : Int)).trace ↔
        (t % 10 = 0 ∨ thermostatEnabled = true)) ∧
      ∃ rest, (loopBody dt thermostatEnabled (t : Int)).trace =
          Event.setShouldSample (decide (t % 10 = 0 ∨ thermostatEnabled = true)) ::
            Event.step dt :: rest ∧
        ∀ e ∈ rest, e.isStep = false ∧ ∀ b, e ≠ Event.setShouldSample b) ∧
    (runTimeLoop numTimeSteps dt thermostatEnabled).trace.count Event.sample =
      (if thermostatEnabled = true then
        (runTimeLoop numTimeSteps dt thermostatEnabled).trace.countP Event.isStep
      else
        ((runTimeLoop numTimeSteps dt thermostatEnabled).trace.countP Event.isStep + 9) / 10) ∧
    (numTimeSteps ≤ 2147483647 →
      (runTimeLoop numTimeSteps dt thermostatEnabled).trace.countP Event.isStep = numTimeSteps) ∧
    (runTimeLoop 100 dt false).trace.count Event.sample = 10 := by
  refine ⟨?_, ?_, ?_, ?_, ?_⟩
  · rw [runTimeLoop_eq]
  · intro t
    refine ⟨?_, ?_⟩
    · rw [mem_loopBody_trace, tmod_ten_beq_zero]
      cases thermostatEnabled <;> by_cases h : t % 10 = 0 <;> simp [h]
    · refine ⟨(if (decide (t % 10 = 0) || thermostatEnabled) = true then
              [.timerStart .sampling, .sample, .timerStop .sampling] else [])
        ++ (if thermostatEnabled = true then
              [.timerStart .thermostat, .thermostatApply, .timerStop .thermostat] else [])
        ++ (if decide (t % 10 = 0) = true then [.report (t : Int)] else []), ?_, ?_⟩
      · rw [loopBody_eq, tmod_ten_beq_zero]
        cases thermostatEnabled <;> by_cases h : t % 10 = 0 <;> simp [h]
      · cases thermostatEnabled <;> by_cases h : t % 10 = 0 <;> simp [h, Event.isStep]
  · rw [runTimeLoop_count_sample, runTimeLoop_countP_isStep]
  · intro h
    rw [runTimeLoop_countP_isStep, iterationCount_of_le _ h]
  · rw [runTimeLoop_count_sample]
    decide

/-- A loop configured for 25 steps makes 25 steps. -/
theorem sampling_cadence_witness :
    (runTimeLoop 25 (1 / 1000) true).trace.countP Event.isStep = 25 :=
  (sampling_cadence 25 (1 / 1000) true).2.2.2.1 (by decide)

/-! ## C8 and C10: step count and reports -/

theorem runTimeLoop_count_step (n : Nat) (dt : ℚ) (th : Bool) :
    (runTimeLoop n dt th).trace.count (Event.step dt) = iterationCount n := by
  rw [runTimeLoop_eq]
  have h := countP_flatMap_range (· == Event.step dt)
    (fun t => (loopBody dt th (t : Int)).trace) 1
    (fun i => by
      have := loopBody_count_step dt th i
      simpa [List.count] using this) (iterationCount n)
  simpa [List.count] using h

theorem setUp_countP_isStep (sys : Engine) (uc : UnitConverter) (cfg : Config) :
    (setUp sys uc cfg).trace.countP Event.isStep = 0 := by
  cases h : sys.rejectsLattice cfg.numUnitCells (uc.lengthFromAngstroms cfg.latticeConstant)
      (uc.temperatureFromSI cfg.temperature)
  · rw [setUp_accept sys uc cfg h]; simp [Event.isStep, List.countP_cons]
  · rw [setUp_reject sys uc cfg h]; simp [Event.isStep, List.countP_cons]

theorem isStep_eq_true (e : Event) (h : e.isStep = true) : ∃ dt, e = .step dt := by
  cases e <;> first | exact ⟨_, rfl⟩ | cases h

/-- C8: step count.  For every configured number of time steps `n` with
`0 ≤ n ≤ 2^31 - 1` the loop terminates, `system.step` is called exactly `n`
times, and every call is `system.step(dt)` with the one `dt` the loop was
entered with; no step is called when `n = 0`.  In the program this `n` and `dt`
are the configured `numTimeSteps` and the converted time step: when the command
line is read and the lattice is created, the run returns 0 with exactly `n`
calls of `system.step`, all with the configured `dt`. -/
theorem step_count (sys : Engine) (libc : Libc) (uc : UnitConverter) (argv : List String)
    (numTimeSteps : Nat) (dt : ℚ) (thermostatEnabled : Bool)
    (hn : numTimeSteps ≤ 2147483647) :
    (runTimeLoop numTimeSteps dt thermostatEnabled).result = .done () ∧
    (runTimeLoop numTimeSteps dt thermostatEnabled).trace.countP Event.isStep = numTimeSteps ∧
    (∀ e ∈ (runTimeLoop numTimeSteps dt thermostatEnabled).trace,
      e.isStep = true → e = Event.step dt) ∧
    (numTimeSteps = 0 →
      ∀ e ∈ (runTimeLoop numTimeSteps dt thermostatEnabled).trace, e.isStep = false) ∧
    (∀ cfg, (parseArguments libc uc argv).result = .done cfg →
      cfg.numTimeSteps = numTimeSteps →
      sys.rejectsLattice cfg.numUnitCells (uc.lengthFromAngstroms cfg.latticeConstant)
        (uc.temperatureFromSI cfg.temperature) = false →
      (main sys libc uc argv).result = .done 0 ∧
      (main sys libc uc argv).trace.countP Event.isStep = numTimeSteps ∧
      (main sys libc uc argv).trace.count (Event.step cfg.dt) = numTimeSteps) := by
  have hloop : ∀ e ∈ (runTimeLoop numTimeSteps dt thermostatEnabled).trace,
      e.isStep = true → e = Event.step dt := by
    intro e he hs
    obtain ⟨t, _, ht⟩ := (mem_runTimeLoop_trace _ _ _ e).1 he
    rw [mem_loopBody_trace] at ht
    rcases ht with rfl | rfl | ⟨_, rfl | rfl | rfl⟩ | ⟨_, rfl | rfl | rfl⟩ | ⟨_, rfl⟩
    all_goals first
      | rfl
      | cases hs
  refine ⟨?_, ?_, hloop, ?_, ?_⟩
  · rw [runTimeLoop_eq]; simp [hn]
  · rw [runTimeLoop_countP_isStep, iterationCount_of_le _ hn]
  · intro h0 e he
    subst h0
    have hc := runTimeLoop_countP_isStep 0 dt thermostatEnabled
    rw [iterationCount_of_le _ hn, List.countP_eq_zero] at hc
    simpa using hc e he
  · intro cfg hP hcfg hr
    subst hcfg
    have hP0 : (parseArguments libc uc argv).trace.countP Event.isStep = 0 :=
      parseArguments_countP_eq_zero libc uc argv _ (fun _ => rfl) (fun _ => rfl)
    have hS0 := setUp_countP_isStep sys uc cfg
    have hF0 : (finish cfg).trace.countP Event.isStep = 0 := by
      rw [finish_eq]; simp [Event.isStep, List.countP_cons]
    have hP1 : (parseArguments libc uc argv).trace.count (Event.step cfg.dt) = 0 :=
      List.count_eq_zero.2 (parseArguments_not_step libc uc argv cfg.dt)
    have hS1 : (setUp sys uc cfg).trace.count (Event.step cfg.dt) = 0 :=
      List.count_eq_zero.2 (setUp_not_step sys uc cfg cfg.dt)
    have hF1 : (finish cfg).trace.count (Event.step cfg.dt) = 0 := by
      rw [finish_eq]; simp [List.count_cons]
    rw [main_of_accept sys libc uc argv cfg hP hr]
    simp only [hn, if_true, List.countP_append, List.count_append, hP0, hS0, hF0, hP1, hS1, hF1,
      runTimeLoop_countP_isStep, runTimeLoop_count_step, iterationCount_of_le _ hn]
    simp

/-- A loop configured for 3 steps returns after 3 steps. -/
theorem step_count_witness :
    (runTimeLoop 3 (1 / 1000) true).result = .done () ∧
    (runTimeLoop 3 (1 / 1000) true).trace.countP Event.isStep = 3 :=
  ⟨(step_count permissiveEngine decimalLibc plainUnits ["md"] 3 (1 / 1000) true (by decide)).1,
   (step_count permissiveEngine decimalLibc plainUnits ["md"] 3 (1 / 1000) true (by decide)).2.1⟩

/-- C10: reports are never stale with respect to sampling.  The calls of the
loop are those of its iterations `0, 1, ...` in turn; iteration `t` prints a
report line if and only if `t` is a multiple of 10, the line it prints is the
one of step `t`, and an iteration that prints it has called `system.step`, then
the sampler, and prints the report last, whatever the thermostat setting. -/
theorem report_follows_sample (numTimeSteps : Nat) (dt : ℚ) (thermostatEnabled : Bool)
    (t : Nat) :
    (runTimeLoop numTimeSteps dt thermostatEnabled).trace =
        (List.range (iterationCount numTimeSteps)).flatMap
          (fun t => (loopBody dt thermostatEnabled (t : Int)).trace) ∧
    (Event.report (t : Int) ∈ (loopBody dt thermostatEnabled (t : Int)).trace ↔ t % 10 = 0) ∧
    (∀ e ∈ (loopBody dt thermostatEnabled (t : Int)).trace,
      e.isReport = true → e = Event.report (t : Int) ∧ t % 10 = 0) ∧
    (t % 10 = 0 → ∃ a b c, (loopBody dt thermostatEnabled (t : Int)).trace =
        a ++ Event.step dt :: b ++ Event.sample :: c ++ [Event.report (t : Int)] ∧
      ∀ e ∈ a ++ Event.step dt :: b ++ Event.sample :: c, e.isReport = false) := by
  refine ⟨?_, ?_, ?_, ?_⟩
  · rw [runTimeLoop_eq]
  · rw [mem_loopBody_trace, tmod_ten_beq_zero]
    cases thermostatEnabled <;> by_cases h : t % 10 = 0 <;> simp [h]
  · intro e he hr
    rw [mem_loopBody_trace, tmod_ten_beq_zero] at he
    rcases he with rfl | rfl | ⟨_, rfl | rfl | rfl⟩ | ⟨_, rfl | rfl | rfl⟩ | ⟨h, rfl⟩
    all_goals first
      | exact ⟨rfl, by simpa using h⟩
      | cases hr
  · intro h
    refine ⟨[.setShouldSample true], [.timerStart .sampling],
      (.timerStop .sampling :: if thermostatEnabled = true then
        [.timerStart .thermostat, .thermostatApply, .timerStop .thermostat] else []), ?_, ?_⟩
    · rw [loopBody_eq, tmod_ten_beq_zero]
      cases thermostatEnabled <;> simp [h]
    · cases thermostatEnabled <;> simp [Event.isReport]

/-- Iteration 20 steps, samples and then prints its report. -/
theorem report_follows_sample_witness :
    ∃ a b c, (loopBody (1 / 1000) false ((20 : Nat) : Int)).trace =
        a ++ Event.step (1 / 1000) :: b ++ Event.sample :: c ++ [Event.report ((20 : Nat) : Int)] ∧
      ∀ e ∈ a ++ Event.step (1 / 1000) :: b ++ Event.sample :: c, e.isReport = false :=
  (report_follows_sample 100 (1 / 1000) false 20).2.2.2 (by decide)

/-! ## C9: reading of the argument vector -/

theorem argvReads_map (l : List Nat) : argvReads (l.map Event.argvRead) = l := by
  induction l with
  | nil => rfl
  | cons a l ih => simp [argvReads] at ih ⊢; exact ih

/-- C9: argument reading stays inside the argument vector if and only if the
argument count is at most 1 or at least 8.  With `args ≤ 1` no entry of `argv`
is read and all seven parameters keep their defaults; with `args ≥ 8` exactly
`argv[1]`, ..., `argv[7]` are read and all seven parameters come from them;
with `2 ≤ args ≤ 7` the driver accesses `argv[args]`, past the end, and no
parameter set is produced. -/
theorem argument_reading_bounds (libc : Libc) (uc : UnitConverter) (argv : List String) :
    ((∀ i ∈ argvReads (parseArguments libc uc argv).trace, i < argv.length) ↔
      (argv.length ≤ 1 ∨ 8 ≤ argv.length)) ∧
    (argv.length ≤ 1 →
      argvReads (parseArguments libc uc argv).trace = [] ∧
      (parseArguments libc uc argv).result =
        .done { numTimeSteps := 100, dt := uc.timeFromSI 1e-14, numUnitCells := 8,
                latticeConstant := 5.26, loadState := false, thermostatEnabled := false,
                temperature := 150 }) ∧
    (8 ≤ argv.length →
      argvReads (parseArguments libc uc argv).trace = [1, 2, 3, 4, 5, 6, 7] ∧
      (parseArguments libc uc argv).result =
        .done { numTimeSteps := toUnsigned (libc.atoi (argv.getD 2 "")),
                dt := uc.timeFromSI (libc.atof (argv.getD 1 "") * 1e-15),
                numUnitCells := libc.atoi (argv.getD 3 ""),
                latticeConstant := libc.atof (argv.getD 4 ""),
                loadState := toBool (libc.atoi (argv.getD 5 "")),
                thermostatEnabled := toBool (libc.atoi (argv.getD 6 "")),
                temperature := libc.atof (argv.getD 7 "") }) ∧
    (2 ≤ argv.length → argv.length ≤ 7 →
      (∃ i ∈ argvReads (parseArguments libc uc argv).trace, argv.length ≤ i) ∧
      (parseArguments libc uc argv).result = .abort (.argvOutOfBounds argv.length)) := by
  have hdef : argv.length ≤ 1 → argvReads (parseArguments libc uc argv).trace = [] := by
    intro h
    rw [parseArguments_default libc uc argv h]
    rfl
  have hfull : 8 ≤ argv.length →
      argvReads (parseArguments libc uc argv).trace = [1, 2, 3, 4, 5, 6, 7] := by
    intro h
    obtain ⟨a0, a1, a2, a3, a4, a5, a6, a7, rest, rfl⟩ := exists_cons8 argv h
    rw [parseArguments_full]
    rfl
  have hover : 2 ≤ argv.length → argv.length ≤ 7 →
      argvReads (parseArguments libc uc argv).trace = 1 :: List.range' 2 (argv.length - 1) := by
    intro h2 h7
    rw [parseArguments_overrun libc uc argv h2 h7]
    have := argvReads_map (List.range' 2 (argv.length - 1))
    simpa [argvReads] using this
  refine ⟨⟨?_, ?_⟩, ?_, ?_, ?_⟩
  · intro hall
    by_contra hcon
    have h2 : 2 ≤ argv.length := by omega
    have h7 : argv.length ≤ 7 := by omega
    have hmem : argv.length ∈ argvReads (parseArguments libc uc argv).trace := by
      rw [hover h2 h7]
      simp only [List.mem_cons, List.mem_range'_1]
      right; omega
    exact absurd (hall _ hmem) (by omega)
  · rintro (h | h) i hi
    · rw [hdef h] at hi; cases hi
    · rw [hfull h] at hi
      simp only [List.mem_cons, List.mem_singleton, List.not_mem_nil, or_false] at hi
      omega
  · intro h
    exact ⟨hdef h, by rw [parseArguments_default libc uc argv h]⟩
  · intro h
    refine ⟨hfull h, ?_⟩
    obtain ⟨a0, a1, a2, a3, a4, a5, a6, a7, rest, rfl⟩ := exists_cons8 argv h
    rw [parseArguments_full]
    rfl
  · intro h2 h7
    refine ⟨⟨argv.length, ?_, le_refl _⟩, by rw [parseArguments_overrun libc uc argv h2 h7]⟩
    rw [hover h2 h7]
    simp only [List.mem_cons, List.mem_range'_1]
    right; omega

/-- With two arguments the driver accesses `argv[3]`, past the end. -/
theorem argument_reading_bounds_witness :
    (∃ i ∈ argvReads (parseArguments decimalLibc plainUnits ["md", "1", "100"]).trace,
        ["md", "1", "100"].length ≤ i) ∧
      (parseArguments decimalLibc plainUnits ["md", "1", "100"]).result =
        .abort (.argvOutOfBounds ["md", "1", "100"].length) :=
  (argument_reading_bounds decimalLibc plainUnits ["md", "1", "100"]).2.2.2
    (by decide) (by decide)

/-! ## C3: the default configuration -/

theorem timeFromSIArguments_append (l₁ l₂ : List Event) :
    timeFromSIArguments (l₁ ++ l₂) = timeFromSIArguments l₁ ++ timeFromSIArguments l₂ := by
  simp [timeFromSIArguments]

theorem timeFromSIArguments_eq_nil (l : List Event) (h : ∀ x, Event.timeFromSI x ∉ l) :
    timeFromSIArguments l = [] := by
  unfold timeFromSIArguments
  rw [List.filterMap_eq_nil_iff]
  intro e he
  cases e <;> first | rfl | exact absurd he (h _)

theorem setUp_timeFromSIArguments (sys : Engine) (uc : UnitConverter) (cfg : Config) :
    timeFromSIArguments (setUp sys uc cfg).trace = [] := by
  apply timeFromSIArguments_eq_nil
  intro x
  cases h : sys.rejectsLattice cfg.numUnitCells (uc.lengthFromAngstroms cfg.latticeConstant)
      (uc.temperatureFromSI cfg.temperature)
  · rw [setUp_accept sys uc cfg h]; simp
  · rw [setUp_reject sys uc cfg h]; simp

theorem runTimeLoop_timeFromSIArguments (n : Nat) (dt : ℚ) (th : Bool) :
    timeFromSIArguments (runTimeLoop n dt th).trace = [] := by
  apply timeFromSIArguments_eq_nil
  intro x he
  obtain ⟨t, _, ht⟩ := (mem_runTimeLoop_trace n dt th _).1 he
  rw [mem_loopBody_trace] at ht
  simp at ht

/-- The values handed to `timeFromSI` in a whole run are those handed while the
command line is read. -/
theorem main_timeFromSIArguments (sys : Engine) (libc : Libc) (uc : UnitConverter)
    (argv : List String) :
    timeFromSIArguments (main sys libc uc argv).trace =
      timeFromSIArguments (parseArguments libc uc argv).trace := by
  cases hP : (parseArguments libc uc argv).result with
  | abort w => rw [main_of_parse_abort sys libc uc argv w hP]
  | done cfg =>
    cases hr : sys.rejectsLattice cfg.numUnitCells (uc.lengthFromAngstroms cfg.latticeConstant)
        (uc.temperatureFromSI cfg.temperature) with
    | true =>
      rw [main_of_reject sys libc uc argv cfg hP hr]
      simp [timeFromSIArguments_append, setUp_timeFromSIArguments]
    | false =>
      rw [main_of_accept sys libc uc argv cfg hP hr]
      simp only [timeFromSIArguments_append, setUp_timeFromSIArguments,
        runTimeLoop_timeFromSIArguments, List.append_nil, List.nil_append]
      split
      · rw [finish_eq]; simp [timeFromSIArguments]
      · simp [timeFromSIArguments]

/-- The calls a run makes up to and including `createFCCLattice`, once the
command line is read. -/
theorem main_trace_startup (sys : Engine) (libc : Libc) (uc : UnitConverter)
    (argv : List String) (cfg : Config) (hP : (parseArguments libc uc argv).result = .done cfg) :
    ∃ rest, (main sys libc uc argv).trace =
      (parseArguments libc uc argv).trace ++
        [.lengthFromAngstroms (2.5 * 3.405), .newSystem, .newStatisticsSampler,
         .temperatureFromSI cfg.temperature,
         .newBerendsenThermostat (uc.temperatureFromSI cfg.temperature) 0.01,
         .setCutoffRadius (uc.lengthFromAngstroms (2.5 * 3.405)),
         .lengthFromAngstroms cfg.latticeConstant, .temperatureFromSI cfg.temperature,
         .createFCCLattice cfg.numUnitCells (uc.lengthFromAngstroms cfg.latticeConstant)
           (uc.temperatureFromSI cfg.temperature)] ++ rest := by
  cases hr : sys.rejectsLattice cfg.numUnitCells (uc.lengthFromAngstroms cfg.latticeConstant)
      (uc.temperatureFromSI cfg.temperature) with
  | true =>
    rw [main_of_reject sys libc uc argv cfg hP hr, setUp_reject sys uc cfg hr]
    exact ⟨[], by simp⟩
  | false =>
    rw [main_of_accept sys libc uc argv cfg hP hr, setUp_accept sys uc cfg hr]
    exact ⟨_, by simp only [List.append_assoc, List.cons_append, List.nil_append]; rfl⟩

theorem main_default_timeFromSIArguments (sys : Engine) (libc : Libc) (uc : UnitConverter)
    (argv : List String) (h : argv.length ≤ 1) :
    timeFromSIArguments (main sys libc uc argv).trace = [1e-14] := by
  rw [main_timeFromSIArguments, parseArguments_default libc uc argv h]
  rfl

theorem main_full_timeFromSIArguments (sys : Engine) (libc : Libc) (uc : UnitConverter)
    (a0 a1 a2 a3 a4 a5 a6 a7 : String) (rest : List String) :
    timeFromSIArguments
        (main sys libc uc (a0 :: a1 :: a2 :: a3 :: a4 :: a5 :: a6 :: a7 :: rest)).trace =
      [1e-14, libc.atof a1 * 1e-15] := by
  rw [main_timeFromSIArguments, parseArguments_full]
  rfl

/-- C3 (amended): run with no command-line arguments, the program runs the
configuration of 8 unit cells per axis, lattice constant 5.26 Å, cutoff
2.5×3.405 Å, 100 time steps, thermostat disabled (target temperature 150 K), and
a time step of 10 fs: the only value handed to `UnitConverter::timeFromSI` is
`1e-14` seconds.  When the engine accepts this lattice the run returns 0 after
exactly 100 calls of `system.step`, each with `timeFromSI(1e-14)`. -/
theorem default_configuration (sys : Engine) (libc : Libc) (uc : UnitConverter)
    (argv : List String) (hargs : argv.length ≤ 1) :
    parseArguments libc uc argv =
      ⟨[.timeFromSI 1e-14],
        .done { numTimeSteps := 100, dt := uc.timeFromSI 1e-14, numUnitCells := 8,
                latticeConstant := 5.26, loadState := false, thermostatEnabled := false,
                temperature := 150 }⟩ ∧
    timeFromSIArguments (main sys libc uc argv).trace = [1e-14] ∧
    (∃ rest, (main sys libc uc argv).trace =
      [.timeFromSI 1e-14, .lengthFromAngstroms (2.5 * 3.405), .newSystem, .newStatisticsSampler,
       .temperatureFromSI 150, .newBerendsenThermostat (uc.temperatureFromSI 150) 0.01,
       .setCutoffRadius (uc.lengthFromAngstroms (2.5 * 3.405)),
       .lengthFromAngstroms 5.26, .temperatureFromSI 150,
       .createFCCLattice 8 (uc.lengthFromAngstroms 5.26) (uc.temperatureFromSI 150)] ++ rest) ∧
    Event.thermostatApply ∉ (main sys libc uc argv).trace ∧
    (sys.rejectsLattice 8 (uc.lengthFromAngstroms 5.26) (uc.temperatureFromSI 150) = false →
      (main sys libc uc argv).result = .done 0 ∧
      (main sys libc uc argv).trace.countP Event.isStep = 100 ∧
      (main sys libc uc argv).trace.count (Event.step (uc.timeFromSI 1e-14)) = 100) := by
  have hP := parseArguments_default libc uc argv hargs
  have hres := congrArg Run.result hP
  simp only [] at hres
  refine ⟨hP, main_default_timeFromSIArguments sys libc uc argv hargs, ?_, ?_, ?_⟩
  · obtain ⟨rest, hrest⟩ := main_trace_startup sys libc uc argv _ hres
    refine ⟨rest, ?_⟩
    rw [hrest, hP]
    rfl
  · cases hr : sys.rejectsLattice 8 (uc.lengthFromAngstroms 5.26) (uc.temperatureFromSI 150) with
    | true =>
      rw [main_of_reject sys libc uc argv _ hres hr]
      simp only [List.mem_append, not_or]
      exact ⟨parseArguments_not_apply libc uc argv, setUp_not_apply sys uc _⟩
    | false =>
      rw [main_of_accept sys libc uc argv _ hres hr]
      simp only [List.mem_append, not_or]
      refine ⟨parseArguments_not_apply libc uc argv, setUp_not_apply sys uc _,
        runTimeLoop_not_apply _ _, ?_⟩
      split
      · rw [finish_eq]; simp
      · simp
  · intro hr
    have hP0 : (parseArguments libc uc argv).trace.countP Event.isStep = 0 :=
      parseArguments_countP_eq_zero libc uc argv _ (fun _ => rfl) (fun _ => rfl)
    have hP1 : (parseArguments libc uc argv).trace.count (Event.step (uc.timeFromSI 1e-14)) = 0 :=
      List.count_eq_zero.2 (parseArguments_not_step libc uc argv _)
    rw [main_of_accept sys libc uc argv _ hres hr]
    simp only [List.countP_append, List.count_append, hP0, hP1, setUp_countP_isStep,
      List.count_eq_zero.2 (setUp_not_step sys uc _ _), runTimeLoop_countP_isStep,
      runTimeLoop_count_step, finish_eq]
    refine ⟨by simp, ?_, ?_⟩
    · simp [iterationCount, Event.isStep, List.countP_cons]
    · simp [iterationCount, List.count_cons]

/-- C3 (as stated) fails: run without arguments, the program never hands
`1e-15` seconds to `UnitConverter::timeFromSI`. -/
theorem default_time_step_not_one_femtosecond :
    (1e-15 : ℚ) ∉
      timeFromSIArguments (main permissiveEngine decimalLibc plainUnits ["md"]).trace := by
  rw [main_default_timeFromSIArguments permissiveEngine decimalLibc plainUnits ["md"]
    (by decide)]
  norm_num

/-- The run without arguments returns after 100 steps of `timeFromSI(1e-14)`. -/
theorem default_configuration_witness :
    (main permissiveEngine decimalLibc plainUnits ["md"]).result = .done 0 ∧
      (main permissiveEngine decimalLibc plainUnits ["md"]).trace.countP Event.isStep = 100 ∧
      (main permissiveEngine decimalLibc plainUnits ["md"]).trace.count
        (Event.step (plainUnits.timeFromSI 1e-14)) = 100 :=
  (default_configuration permissiveEngine decimalLibc plainUnits ["md"] (by decide)).2.2.2.2 rfl

/-! ## C4, C5, C6: the command-line parameters -/

/-- Every `system.step` of a run is called with the configured time step. -/
theorem main_steps (sys : Engine) (libc : Libc) (uc : UnitConverter) (argv : List String)
    (cfg : Config) (hP : (parseArguments libc uc argv).result = .done cfg) :
    ∀ e ∈ (main sys libc uc argv).trace, e.isStep = true → e = Event.step cfg.dt := by
  intro e he hs
  obtain ⟨dt, rfl⟩ := isStep_eq_true e hs
  have hloop : Event.step dt ∈ (runTimeLoop cfg.numTimeSteps cfg.dt cfg.thermostatEnabled).trace →
      Event.step dt = Event.step cfg.dt := by
    intro h
    obtain ⟨t, _, ht⟩ := (mem_runTimeLoop_trace _ _ _ _).1 h
    rw [mem_loopBody_trace] at ht
    simpa using ht
  cases hr : sys.rejectsLattice cfg.numUnitCells (uc.lengthFromAngstroms cfg.latticeConstant)
      (uc.temperatureFromSI cfg.temperature) with
  | true =>
    rw [main_of_reject sys libc uc argv cfg hP hr] at he
    rcases List.mem_append.1 he with h | h
    · exact absurd h (parseArguments_not_step libc uc argv dt)
    · exact absurd h (setUp_not_step sys uc cfg dt)
  | false =>
    rw [main_of_accept sys libc uc argv cfg hP hr] at he
    simp only [List.mem_append] at he
    rcases he with h | h | h | h
    · exact absurd h (parseArguments_not_step libc uc argv dt)
    · exact absurd h (setUp_not_step sys uc cfg dt)
    · exact hloop h
    · split at h
      · rw [finish_eq] at h; simp at h
      · cases h

/-- C4 (amended): the time-step argument is given in femtoseconds.  For every
command line that supplies the seven parameters, the SI time value handed to
`UnitConverter::timeFromSI` for the time step is the number parsed from the
first argument multiplied by `1e-15` (it follows the call with `1e-14` of the
default initialiser), and every `system.step` receives its conversion; the
lattice constant parsed from the fourth argument is handed unscaled to
`lengthFromAngstroms`, and the temperature parsed from the seventh argument
unscaled to `temperatureFromSI`. -/
theorem time_step_argument_scaled (sys : Engine) (libc : Libc) (uc : UnitConverter)
    (a0 a1 a2 a3 a4 a5 a6 a7 : String) (rest : List String) :
    timeFromSIArguments
        (main sys libc uc (a0 :: a1 :: a2 :: a3 :: a4 :: a5 :: a6 :: a7 :: rest)).trace =
      [1e-14, libc.atof a1 * 1e-15] ∧
    (∀ e ∈ (main sys libc uc (a0 :: a1 :: a2 :: a3 :: a4 :: a5 :: a6 :: a7 :: rest)).trace,
      e.isStep = true → e = Event.step (uc.timeFromSI (libc.atof a1 * 1e-15))) ∧
    (∃ tail, (main sys libc uc (a0 :: a1 :: a2 :: a3 :: a4 :: a5 :: a6 :: a7 :: rest)).trace =
      [.timeFromSI 1e-14, .argvRead 1, .timeFromSI (libc.atof a1 * 1e-15), .argvRead 2,
       .argvRead 3, .argvRead 4, .argvRead 5, .argvRead 6, .argvRead 7,
       .lengthFromAngstroms (2.5 * 3.405), .newSystem, .newStatisticsSampler,
       .temperatureFromSI (libc.atof a7),
       .newBerendsenThermostat (uc.temperatureFromSI (libc.atof a7)) 0.01,
       .setCutoffRadius (uc.lengthFromAngstroms (2.5 * 3.405)),
       .lengthFromAngstroms (libc.atof a4), .temperatureFromSI (libc.atof a7),
       .createFCCLattice (libc.atoi a3) (uc.lengthFromAngstroms (libc.atof a4))
         (uc.temperatureFromSI (libc.atof a7))] ++ tail) := by
  have hP := parseArguments_full libc uc a0 a1 a2 a3 a4 a5 a6 a7 rest
  have hres := congrArg Run.result hP
  simp only [] at hres
  refine ⟨main_full_timeFromSIArguments sys libc uc a0 a1 a2 a3 a4 a5 a6 a7 rest, ?_, ?_⟩
  · exact main_steps sys libc uc _ _ hres
  · obtain ⟨tail, htail⟩ := main_trace_startup sys libc uc _ _ hres
    refine ⟨tail, ?_⟩
    rw [htail, hP]
    rfl

theorem decimalLibc_atof_one : decimalLibc.atof "1" = 1 := by
  simp [decimalLibc, decimalValue, digitsValue]

/-- C4 (as stated) fails: with first argument `1` the value `1` is never handed
to `UnitConverter::timeFromSI`. -/
theorem time_step_argument_not_seconds :
    decimalLibc.atof "1" ∉
      timeFromSIArguments (main permissiveEngine decimalLibc plainUnits
        ["md", "1", "3", "8", "5.26", "0", "0", "150"]).trace := by
  rw [main_full_timeFromSIArguments, decimalLibc_atof_one]
  norm_num

/-- C5: the load-prior-state option is a no-op.  Two command lines of seven
parameters that differ only in the fifth argument give the same run: the same
calls with the same arguments in the same order, the same report lines and the
same outcome. -/
theorem loadState_is_ignored (sys : Engine) (libc : Libc) (uc : UnitConverter)
    (argv argv' : List String) (h : argv.length = 8) (h' : argv'.length = 8)
    (hsame : ∀ i, i ≠ 5 → argv[i]? = argv'[i]?) :
    main sys libc uc argv = main sys libc uc argv' := by
  obtain ⟨a0, a1, a2, a3, a4, a5, a6, a7, rest, rfl⟩ := exists_cons8 argv (by omega)
  obtain ⟨b0, b1, b2, b3, b4, b5, b6, b7, rest', rfl⟩ := exists_cons8 argv' (by omega)
  have e1 := hsame 1 (by decide)
  have e2 := hsame 2 (by decide)
  have e3 := hsame 3 (by decide)
  have e4 := hsame 4 (by decide)
  have e6 := hsame 6 (by decide)
  have e7 := hsame 7 (by decide)
  simp only [List.getElem?_cons_succ, List.getElem?_cons_zero, Option.some.injEq] at e1 e2 e3 e4 e6 e7
  subst e1 e2 e3 e4 e6 e7
  unfold main
  rw [parseArguments_full, parseArguments_full]
  rfl

/-- The runs of `md 1 3 8 5.26 0 1 150` and `md 1 3 8 5.26 1 1 150` are the same. -/
theorem loadState_is_ignored_witness :
    main permissiveEngine decimalLibc plainUnits ["md", "1", "3", "8", "5.26", "0", "1", "150"] =
      main permissiveEngine decimalLibc plainUnits ["md", "1", "3", "8", "5.26", "1", "1", "150"] :=
  loadState_is_ignored permissiveEngine decimalLibc plainUnits
    ["md", "1", "3", "8", "5.26", "0", "1", "150"] ["md", "1", "3", "8", "5.26", "1", "1", "150"]
    rfl rfl (by
      intro i hi
      match i, hi with
      | 0, _ => rfl
      | 1, _ => rfl
      | 2, _ => rfl
      | 3, _ => rfl
      | 4, _ => rfl
      | 5, hi => exact absurd rfl hi
      | 6, _ => rfl
      | 7, _ => rfl
      | n + 8, _ => rfl)

/-- C6 (amended): a non-positive number of unit cells per axis is fatal at
setup.  With the engine of the specification, for every command line whose
third argument parses to a value `≤ 0`, whatever the step count, `system.step`
is never called; and when the command line supplies all seven parameters the
run ends at the call of `createFCCLattice`, rejected by the engine. -/
theorem nonpositive_cell_count_is_fatal (libc : Libc) (uc : UnitConverter)
    (argv : List String) (hthird : 4 ≤ argv.length)
    (hcells : libc.atoi (argv.getD 3 "") ≤ 0) :
    (∀ e ∈ (main specEngine libc uc argv).trace, e.isStep = false) ∧
    (8 ≤ argv.length →
      (main specEngine libc uc argv).result =
        .abort (.fatal (.createFCCLattice (libc.atoi (argv.getD 3 ""))
          (uc.lengthFromAngstroms (libc.atof (argv.getD 4 "")))
          (uc.temperatureFromSI (libc.atof (argv.getD 7 ""))))) ∧
      (main specEngine libc uc argv).trace.getLast? =
        some (.createFCCLattice (libc.atoi (argv.getD 3 ""))
          (uc.lengthFromAngstroms (libc.atof (argv.getD 4 "")))
          (uc.temperatureFromSI (libc.atof (argv.getD 7 ""))))) := by
  have hfull : 8 ≤ argv.length →
      (main specEngine libc uc argv).result =
        .abort (.fatal (.createFCCLattice (libc.atoi (argv.getD 3 ""))
          (uc.lengthFromAngstroms (libc.atof (argv.getD 4 "")))
          (uc.temperatureFromSI (libc.atof (argv.getD 7 ""))))) ∧
      (main specEngine libc uc argv).trace.getLast? =
        some (.createFCCLattice (libc.atoi (argv.getD 3 ""))
          (uc.lengthFromAngstroms (libc.atof (argv.getD 4 "")))
          (uc.temperatureFromSI (libc.atof (argv.getD 7 "")))) ∧
      (∀ e ∈ (main specEngine libc uc argv).trace, e.isStep = false) := by
    intro hargs
    obtain ⟨a0, a1, a2, a3, a4, a5, a6, a7, rest, rfl⟩ := exists_cons8 argv hargs
    have hP := parseArguments_full libc uc a0 a1 a2 a3 a4 a5 a6 a7 rest
    have hres := congrArg Run.result hP
    simp only [] at hres
    simp only [List.getD_cons_succ, List.getD_cons_zero] at hcells ⊢
    have hr : specEngine.rejectsLattice (libc.atoi a3) (uc.lengthFromAngstroms (libc.atof a4))
        (uc.temperatureFromSI (libc.atof a7)) = true := by
      simp [specEngine, hcells]
    rw [main_of_reject specEngine libc uc _ _ hres hr, setUp_reject specEngine uc _ hr, hP]
    refine ⟨rfl, by simp, ?_⟩
    simp [Event.isStep]
  refine ⟨?_, fun h => ⟨(hfull h).1, (hfull h).2.1⟩⟩
  by_cases h8 : 8 ≤ argv.length
  · exact (hfull h8).2.2
  · have hover := parseArguments_overrun libc uc argv (by omega) (by omega)
    have hres := congrArg Run.result hover
    simp only [] at hres
    rw [main_of_parse_abort specEngine libc uc argv _ hres]
    intro e he
    rcases parseArguments_trace_kind libc uc argv e he with ⟨x, rfl⟩ | ⟨i, rfl⟩ <;> rfl

/-- C6 (as stated) fails: in `md 1 100 0` the third argument parses to `0`, yet
the run ends at the access to `argv[4]`, past the end of the argument vector,
and `createFCCLattice` is not called at all. -/
theorem nonpositive_cell_count_short_command_line :
    decimalLibc.atoi (["md", "1", "100", "0"].getD 3 "") ≤ 0 ∧
      (main specEngine decimalLibc plainUnits ["md", "1", "100", "0"]).result =
        .abort (.argvOutOfBounds 4) ∧
      (main specEngine decimalLibc plainUnits ["md", "1", "100", "0"]).trace.countP
        (Event.isConfig .createFCCLattice) = 0 := by
  decide

/-- The run of `md 1 100 0 5.26 0 0 150` on the engine of the specification
ends at `createFCCLattice`. -/
theorem nonpositive_cell_count_is_fatal_witness :
    (main specEngine decimalLibc plainUnits
        ["md", "1", "100", "0", "5.26", "0", "0", "150"]).result =
      .abort (.fatal (.createFCCLattice
        (decimalLibc.atoi (["md", "1", "100", "0", "5.26", "0", "0", "150"].getD 3 ""))
        (plainUnits.lengthFromAngstroms
          (decimalLibc.atof (["md", "1", "100", "0", "5.26", "0", "0", "150"].getD 4 "")))
        (plainUnits.temperatureFromSI
          (decimalLibc.atof (["md", "1", "100", "0", "5.26", "0", "0", "150"].getD 7 ""))))) :=
  ((nonpositive_cell_count_is_fatal decimalLibc plainUnits
    ["md", "1", "100", "0", "5.26", "0", "0", "150"] (by decide) (by decide)).2 (by decide)).1

end MolecularDynamics
